/-
Verification of the record-reconciliation and incremental-persistence engine of
`src/main.py` (ProjetoAutomacaoComOllama).

The Python source is shallowly embedded: dict-shaped records become structures
(a dict key accessed with `.get(k, "")` becomes a `String` field whose absence
is the empty string, a key accessed with `.get(k)` becomes an `Option String`),
the JSON document store becomes a `DadosExistentes` value, the thread-shared
`ordens_existentes` set becomes a `List String` with set-style insertion, and
`datetime.strptime` / `datetime.date` are reimplemented below following
CPython's `_strptime` semantics for the exact format strings appearing in the
source.  Wall-clock fields (`ultima_atualizacao`, `processamento_timestamp`,
`data_processamento`, `data_atualizacao`) carry no decision logic and are
omitted.  External collaborators (Outlook, the Ollama extractor, `dateutil`'s
permissive parser, `hashlib.md5`) are passed in as function parameters.
-/
import Mathlib

/-! ## Extracted record and processed document (src/main.py data shapes)

`dados_exportacao` is the dict produced by `processar_email_json_rapido`: the
field names below mirror the JSON template keys (lines 94-111), and the two
disposition markers the store logic inspects (`status`, `erro`). -/

structure DadosExportacao where
  dataEmbarque : String := ""
  plantaCarregamento : String := ""
  tipoEmbarque : String := ""
  temperatura : String := ""
  ordem : String := ""
  portoSaida : String := ""
  portoChegada : String := ""
  companhia : String := ""
  navio : String := ""
  dline : String := ""
  reservaBooking : String := ""
  idAutorizacao : String := ""
  resumoEmbarque : String := ""
  transportadorTer : String := ""
  eta : String := ""
  valorPedido : String := ""
  status : Option String := none
  erro : Option String := none
deriving DecidableEq

/-- `email_processado` as built in `processar_lote_emails` (lines 596-605):
metadata (sequence number, subject, receipt timestamp string, sender) plus the
extracted record.  The wall-clock `processamento_timestamp` is omitted. -/
structure EmailProcessado where
  numeroEmail : Nat
  assunto : String := ""
  dataRecebimento : String := ""
  remetente : String := ""
  dados : DadosExportacao
deriving DecidableEq

/-- The `metadata` block of the JSON store (lines 266-274), without the two
wall-clock timestamp fields. -/
structure Metadata where
  totalEmailsProcessados : Nat
  emailsComDados : Nat
  ordensUnicas : List String
deriving DecidableEq

/-- The JSON document store `{metadata, emails}`. -/
structure DadosExistentes where
  metadata : Metadata
  emails : List EmailProcessado
deriving DecidableEq

/-- The empty store structure returned by `carregar_json_existente_rapido`
when no file exists (lines 266-275). -/
def dadosVazios : DadosExistentes :=
  { metadata := { totalEmailsProcessados := 0, emailsComDados := 0, ordensUnicas := [] }
    emails := [] }

/-! ## Python string primitives -/

/-- ASCII whitespace as recognized by Python's `str.strip` and by `\s` in the
regexes `_strptime` compiles. -/
def isPyWs (c : Char) : Bool :=
  c = ' ' || c = '\t' || c = '\n' || c = '\r' || c = '\x0b' || c = '\x0c'

/-- Python `str.strip()`: drop leading and trailing whitespace. -/
def pyStrip (s : String) : String :=
  String.mk (((s.data.dropWhile isPyWs).reverse.dropWhile isPyWs).reverse)

/-- Numeric value of a decimal digit character. -/
def digitVal (c : Char) : Nat := c.toNat - 48

/-! ## `datetime.strptime` for the format directives used by the source

CPython's `_strptime` compiles each directive to a regex and requires the
whole input to match:
  `%Y` is exactly four digits; `%m` is `1[0-2]|0[1-9]|[1-9]`;
  `%d` is `3[01]|[12]\d|0[1-9]|[1-9]`; `%H` is `2[0-3]|[0-1]\d|\d`;
  `%M`/`%S` are `[0-5]\d|\d`; `%b`/`%B` are the (case-insensitive) month
  names; a literal whitespace in the format matches `\s+`.
A two-digit numeral followed by a failing literal cannot backtrack into a
one-digit match, because the second digit would then have to match a
non-digit literal; so the "two digits if available, else one" rule below is
exact.  After matching, `datetime` construction validates the date (year at
least 1, day bounded by the month length). -/

/-- `%Y`: exactly four digits. -/
def parse4Digits : List Char → Option (Nat × List Char)
  | a :: b :: c :: d :: rest =>
    if a.isDigit && b.isDigit && c.isDigit && d.isDigit then
      some (1000 * digitVal a + 100 * digitVal b + 10 * digitVal c + digitVal d, rest)
    else none
  | _ => none

/-- A one-or-two-digit numeral whose two-digit values lie in `[lo2, hi2]` and
whose one-digit values lie in `[lo1, hi1]` (the regex alternations above). -/
def parse2or1 (lo2 hi2 lo1 hi1 : Nat) : List Char → Option (Nat × List Char)
  | a :: b :: rest =>
    if a.isDigit then
      if b.isDigit then
        let v := 10 * digitVal a + digitVal b
        if lo2 ≤ v && v ≤ hi2 then some (v, rest) else none
      else
        let v := digitVal a
        if lo1 ≤ v && v ≤ hi1 then some (v, b :: rest) else none
    else none
  | [a] =>
    if a.isDigit then
      let v := digitVal a
      if lo1 ≤ v && v ≤ hi1 then some (v, []) else none
    else none
  | [] => none

/-- A literal character of the format string. -/
def parseLit (c : Char) : List Char → Option (List Char)
  | x :: rest => if x = c then some rest else none
  | [] => none

/-- Literal whitespace in the format: `\s+`. -/
def parseWs1 : List Char → Option (List Char)
  | c :: rest => if isPyWs c then some (rest.dropWhile isPyWs) else none
  | [] => none

/-- Case-insensitively strip a (lowercase) name from the front of the input. -/
def stripCaseless : List Char → List Char → Option (List Char)
  | [], l => some l
  | _ :: _, [] => none
  | n :: ns, c :: cs => if c.toLower = n then stripCaseless ns cs else none

def mesesAbrev : List String :=
  ["jan", "feb", "mar", "apr", "may", "jun", "jul", "aug", "sep", "oct", "nov", "dec"]

def mesesCompletos : List String :=
  ["january", "february", "march", "april", "may", "june",
   "july", "august", "september", "october", "november", "december"]

/-- Try each month name in turn, returning its 1-based index. -/
def matchMonthName : List String → Nat → List Char → Option (Nat × List Char)
  | [], _, _ => none
  | n :: ns, idx, l =>
    match stripCaseless n.data l with
    | some rest => some (idx, rest)
    | none => matchMonthName ns (idx + 1) l

/-- Format directives appearing in the source's format strings. -/
inductive FmtTok where
  | year4 | mon2 | day2 | hour2 | min2 | sec2 | monAbbrev | monFull
  | lit (c : Char) | wsp
deriving DecidableEq

/-- Fields of a parsed `datetime`, with `_strptime`'s defaults. -/
structure TmAcc where
  y : Nat := 1900
  mon : Nat := 1
  d : Nat := 1
  hh : Nat := 0
  mi : Nat := 0
  ss : Nat := 0
deriving DecidableEq

def runTok (acc : TmAcc) (l : List Char) : FmtTok → Option (TmAcc × List Char)
  | .year4 => (parse4Digits l).map (fun p => ({ acc with y := p.1 }, p.2))
  | .mon2 => (parse2or1 1 12 1 9 l).map (fun p => ({ acc with mon := p.1 }, p.2))
  | .day2 => (parse2or1 1 31 1 9 l).map (fun p => ({ acc with d := p.1 }, p.2))
  | .hour2 => (parse2or1 0 23 0 9 l).map (fun p => ({ acc with hh := p.1 }, p.2))
  | .min2 => (parse2or1 0 59 0 9 l).map (fun p => ({ acc with mi := p.1 }, p.2))
  | .sec2 => (parse2or1 0 59 0 9 l).map (fun p => ({ acc with ss := p.1 }, p.2))
  | .monAbbrev => (matchMonthName mesesAbrev 1 l).map (fun p => ({ acc with mon := p.1 }, p.2))
  | .monFull => (matchMonthName mesesCompletos 1 l).map (fun p => ({ acc with mon := p.1 }, p.2))
  | .lit c => (parseLit c l).map (fun r => (acc, r))
  | .wsp => (parseWs1 l).map (fun r => (acc, r))

/-- Run a whole format; the full input must be consumed (CPython raises
`ValueError: unconverted data remains` otherwise). -/
def runFmt : List FmtTok → TmAcc → List Char → Option TmAcc
  | [], acc, l => if l = [] then some acc else none
  | t :: ts, acc, l =>
    match runTok acc l t with
    | some (acc2, l2) => runFmt ts acc2 l2
    | none => none

def isLeapYear (y : Nat) : Bool := y % 4 = 0 && (y % 100 ≠ 0 || y % 400 = 0)

def daysInMonth (y m : Nat) : Nat :=
  if m = 2 then (if isLeapYear y then 29 else 28)
  else if m = 4 || m = 6 || m = 9 || m = 11 then 30
  else 31

/-- `datetime`'s own validation of the matched fields (MINYEAR and month
length; the numeral ranges were already enforced by the regex pieces). -/
def validDateAcc (a : TmAcc) : Bool := 1 ≤ a.y && a.d ≤ daysInMonth a.y a.mon

/-- `datetime.strptime(s, fmt)`, as `Option` instead of `ValueError`. -/
def pyStrptime (fmt : List FmtTok) (s : String) : Option TmAcc :=
  match runFmt fmt {} s.data with
  | some a => if validDateAcc a then some a else none
  | none => none

/-- The format `"%Y-%m-%d %H:%M:%S"` used by `comparar_datas_email` (line 300)
and by `processar_lote_emails` when stringifying `ReceivedTime` (line 592). -/
def fmtEmailData : List FmtTok :=
  [.year4, .lit '-', .mon2, .lit '-', .day2, .wsp, .hour2, .lit ':', .min2, .lit ':', .sec2]

/-- `datetime` comparison: lexicographic on (year, month, day, hour, minute,
second) for timezone-naive values. -/
def dtLtB (a b : TmAcc) : Bool :=
  if a.y ≠ b.y then decide (a.y < b.y)
  else if a.mon ≠ b.mon then decide (a.mon < b.mon)
  else if a.d ≠ b.d then decide (a.d < b.d)
  else if a.hh ≠ b.hh then decide (a.hh < b.hh)
  else if a.mi ≠ b.mi then decide (a.mi < b.mi)
  else decide (a.ss < b.ss)

/-- `comparar_datas_email` (lines 296-307): parse both timestamps with the
fixed layout; on any parse failure assume the new one is more recent
(return `True`); otherwise `data_nova > data_existente`. -/
def compararDatasEmail (dataNovaStr dataExistenteStr : String) : Bool :=
  match pyStrptime fmtEmailData dataNovaStr, pyStrptime fmtEmailData dataExistenteStr with
  | some dataNova, some dataExistente => dtLtB dataExistente dataNova
  | _, _ => true

/-! ## Document store operations -/

/-- Truthiness of the `erro` field: Python's `not dados.get('erro')` is false
exactly when the key is present with a non-empty string. -/
def erroTruthyB (d : DadosExportacao) : Bool :=
  match d.erro with
  | none => false
  | some s => decide (s ≠ "")

/-- The predicate of the `emails_com_dados` count (lines 369-373):
`status != 'SEM_DADOS_EXPORTACAO' and not erro`. -/
def comDadosB (d : DadosExportacao) : Bool :=
  if d.status = some "SEM_DADOS_EXPORTACAO" then false else !erroTruthyB d

def contarComDados (l : List EmailProcessado) : Nat :=
  (l.filter (fun e => comDadosB e.dados)).length

/-- Helper scan of `encontrar_email_por_ordem` carrying the enumeration
index. -/
def encontrarAux : List EmailProcessado → String → Nat → Option (Nat × EmailProcessado)
  | [], _, _ => none
  | e :: rest, ordem, i =>
    if pyStrip e.dados.ordem = ordem then some (i, e) else encontrarAux rest ordem (i + 1)

/-- `encontrar_email_por_ordem` (lines 289-294): first stored email whose
stripped `Ordem` equals the key, with its index; `(-1, None)` becomes
`none`. -/
def encontrarEmailPorOrdem (dados : DadosExistentes) (ordem : String) :
    Option (Nat × EmailProcessado) :=
  encontrarAux dados.emails ordem 0

/-- Python `set.add` on the `ordens_existentes` set, as a duplicate-free
list insertion. -/
def insertOrdem (k : String) (s : List String) : List String :=
  if k ∈ s then s else k :: s

/-- `salvar_json_incremental_rapido` (lines 312-387), the single-writer
read-modify-persist cycle, on in-memory state: returns the `sucesso` flag, the
new store, and the (possibly grown) `ordens_existentes` set.  The replace
branch swaps the stored email in place and touches no counters; the append
branch recomputes `total_emails_processados` and `emails_com_dados` and, for a
non-empty key, registers it in the set and rewrites `ordens_unicas`. -/
def salvarJsonIncrementalRapido (dados : DadosExistentes) (email : EmailProcessado)
    (ordens : List String) : Bool × DadosExistentes × List String :=
  let ordem := pyStrip email.dados.ordem
  if ordem ≠ "" ∧ ordem ∈ ordens then
    match encontrarEmailPorOrdem dados ordem with
    | some (indice, existente) =>
      if compararDatasEmail email.dataRecebimento existente.dataRecebimento then
        (true, { dados with emails := dados.emails.set indice email }, ordens)
      else
        (false, dados, ordens)
    | none => (false, dados, ordens)
  else
    let emails2 := dados.emails ++ [email]
    let ordens2 := if ordem ≠ "" then insertOrdem ordem ordens else ordens
    (true,
      { metadata :=
          { totalEmailsProcessados := emails2.length
            emailsComDados := contarComDados emails2
            ordensUnicas := if ordem ≠ "" then ordens2 else dados.metadata.ordensUnicas }
        emails := emails2 },
      ordens2)

/-- A sequence of saves threading store and key set, as the drivers do. -/
def runInsertsFrom (st : DadosExistentes) (ordens : List String) :
    List EmailProcessado → DadosExistentes × List String
  | [] => (st, ordens)
  | e :: es =>
    let r := salvarJsonIncrementalRapido st e ordens
    runInsertsFrom r.2.1 r.2.2 es

/-- A sequence of saves starting from the empty store and the empty key set
(what `carregar_json_existente_rapido` / `obter_ordens_unicas_existentes_rapido`
yield on first run). -/
def runInserts (es : List EmailProcessado) : DadosExistentes × List String :=
  runInsertsFrom dadosVazios [] es

/-! ## Counting documents by key -/

/-- Number of stored documents whose stripped order key equals `k` (the
multiplicity that `encontrar_email_por_ordem`-style lookups see). -/
def countKey (k : String) (l : List EmailProcessado) : Nat :=
  (l.filter (fun e => pyStrip e.dados.ordem = k)).length

/-! ## The single-writer store invariant -/

/-- Every stored non-empty key is registered in the `ordens_existentes` set,
and every non-empty key is held by at most one stored document. -/
def StoreInv (st : DadosExistentes) (ordens : List String) : Prop :=
  (∀ e ∈ st.emails, pyStrip e.dados.ordem ≠ "" → pyStrip e.dados.ordem ∈ ordens) ∧
  (∀ k, k ≠ "" → countKey k st.emails ≤ 1)

/-! ## Concrete documents used as witnesses -/

def docOrd1A : EmailProcessado :=
  { numeroEmail := 1, dataRecebimento := "2024-01-01 10:00:00", dados := { ordem := "ORD1" } }

def docOrd1B : EmailProcessado :=
  { numeroEmail := 2, dataRecebimento := "2024-01-02 09:00:00", dados := { ordem := "ORD1" } }

def docSemOrdem : EmailProcessado := { numeroEmail := 1, dados := {} }

/-! ## Claim C4: persistence trace of the durable write -/

/-- States the durable artifact passes through during the persistence step of
`salvar_json_incremental_rapido` (lines 344-345 and 376-378):
`open(nome_arquivo, 'w')` first truncates the target file in place, and only
then does `json.dump` stream the new snapshot into it.  `none` stands for the
truncated / partially written file, which is not a committed snapshot.  A
write-to-temporary-then-rename protocol would keep the first component equal
to `some old` until the commit point; the source has no temporary artifact. -/
def persistSteps (old new : DadosExistentes) : List (Option DadosExistentes) :=
  [some old, none, some new]

/-- A store with one committed document, as the previously persisted state. -/
def storeComprometido : DadosExistentes :=
  { metadata := { totalEmailsProcessados := 1, emailsComDados := 1, ordensUnicas := ["ORD1"] }
    emails := [docOrd1A] }

/-- The spec's validity predicate, written from the spec's words for
comparison with the implementation's count: "A Record with a non-empty order
key and no error/no-data marker is valid" (a valid extraction carries neither
a `status` marker nor an `erro` marker). -/
def specValidB (d : DadosExportacao) : Bool :=
  decide (pyStrip d.ordem ≠ "") && decide (d.status = none) && decide (d.erro = none)

def contarSpecValid (l : List EmailProcessado) : Nat :=
  (l.filter (fun e => specValidB e.dados)).length

/-- A document with empty order key and an `INSUFFICIENT_TEXT`-style status
marker: not valid per the spec, yet counted by `emails_com_dados`. -/
def docTextoCurto : EmailProcessado :=
  { numeroEmail := 1, dados := { status := some "TEXTO_MUITO_CURTO" } }

/-- A raw mail item as consumed by `processar_lote_emails`: subject, the
already-stringified `ReceivedTime`, sender, and the record produced by the
extraction collaborator (`processar_email_json_rapido`, an external LLM call
whose output is taken as an input here). -/
structure ItemEmail where
  assunto : String := ""
  dataStr : String := ""
  remetente : String := ""
  dados : DadosExportacao
deriving DecidableEq

/-- Result of a batch: the three counters the source returns, the final store
and key set, and an instrumentation trace recording, for each item in arrival
order, the `numero_email` it was assigned and whether its save succeeded. -/
structure ResultadoLote where
  processados : Nat
  duplicados : Nat
  atualizados : Nat
  dados : DadosExistentes
  ordens : List String
  trace : List (Nat × Bool)
deriving DecidableEq

/-- The advisory pre-save "is this an update?" telemetry check
(lines 607-614). -/
def contaAtualizacao (st : DadosExistentes) (ordens : List String) (item : ItemEmail) : Bool :=
  let ordem := pyStrip item.dados.ordem
  if ordem ≠ "" ∧ ordem ∈ ordens then
    match encontrarEmailPorOrdem st ordem with
    | some (_, ex) => compararDatasEmail item.dataStr ex.dataRecebimento
    | none => false
  else false

/-- Loop body of `processar_lote_emails` (lines 571-628).  Each document is
built with `numero_email = total_emails_processados + emails_processados + 1`
read from the current store state (the caller's store dict and the JSON cache
that `salvar_json_incremental_rapido` mutates are the same Python object in
the steady state, so earlier saves of the batch are visible), then saved; the
per-email relational sync of line 624 touches only the relational store and
is modelled separately. -/
def processarLoteGo (p dup atu : Nat) (st : DadosExistentes) (ordens : List String) :
    List ItemEmail → ResultadoLote
  | [] => ⟨p, dup, atu, st, ordens, []⟩
  | item :: rest =>
    let numero := st.metadata.totalEmailsProcessados + p + 1
    let e : EmailProcessado :=
      { numeroEmail := numero, assunto := item.assunto, dataRecebimento := item.dataStr
        remetente := item.remetente, dados := item.dados }
    let atu2 := if contaAtualizacao st ordens item then atu + 1 else atu
    match salvarJsonIncrementalRapido st e ordens with
    | (true, st2, ordens2) =>
      let r := processarLoteGo (p + 1) dup atu2 st2 ordens2 rest
      { r with trace := (numero, true) :: r.trace }
    | (false, st2, ordens2) =>
      let r := processarLoteGo p (dup + 1) atu2 st2 ordens2 rest
      { r with trace := (numero, false) :: r.trace }

/-- `processar_lote_emails`, starting its counters at zero. -/
def processarLoteEmails (lote : List ItemEmail) (dadosExistentes : DadosExistentes)
    (ordensUnicas : List String) : ResultadoLote :=
  processarLoteGo 0 0 0 dadosExistentes ordensUnicas lote

/-- The assigned numbers of the items whose save succeeded (the documents
that actually entered the store). -/
def numerosSucesso (tr : List (Nat × Bool)) : List Nat :=
  tr.filterMap (fun q => if q.2 then some q.1 else none)

def itemOrdA1 : ItemEmail := { dataStr := "2024-01-01 10:00:00", dados := { ordem := "A" } }

def itemOrdA2 : ItemEmail := { dataStr := "2024-01-02 10:00:00", dados := { ordem := "A" } }

def itemOrdB1 : ItemEmail := { dataStr := "2024-01-03 10:00:00", dados := { ordem := "B" } }

def loteRun1 : ResultadoLote := processarLoteEmails [itemOrdA1] dadosVazios []

def loteRun2 : ResultadoLote := processarLoteEmails [itemOrdA2] loteRun1.dados loteRun1.ordens

def loteRun3 : ResultadoLote := processarLoteEmails [itemOrdB1] loteRun2.dados loteRun2.ordens

/-! ## Claim C6: the spreadsheet reconciliation -/

/-- A sheet/relational row as seen by the merge logic of
`atualizar_planilha_avancado`: the business key (`CONTRATO` column, already
string-typed by `astype`) plus its remaining mapped columns. -/
structure LinhaPlanilha where
  chave : String
  campos : List String := []
deriving DecidableEq

/-- Key-ordered insertion, the deterministic model of the final
`sort_values(by=CONTRATO)` re-sort (line 1016).  Only the permutation
property of the sort is used below. -/
def insereOrdenado (r : LinhaPlanilha) : List LinhaPlanilha → List LinhaPlanilha
  | [] => [r]
  | x :: xs => if r.chave ≤ x.chave then r :: x :: xs else x :: insereOrdenado r xs

def ordenaPorChave (l : List LinhaPlanilha) : List LinhaPlanilha :=
  l.foldr insereOrdenado []

/-- `drop_duplicates(subset=[CONTRATO])` (line 978), keeping the first row of
each key. -/
def dedupChavesGo (vistos : List String) : List LinhaPlanilha → List LinhaPlanilha
  | [] => []
  | r :: resto =>
    if r.chave ∈ vistos then dedupChavesGo vistos resto
    else r :: dedupChavesGo (r.chave :: vistos) resto

def dedupChaves (l : List LinhaPlanilha) : List LinhaPlanilha := dedupChavesGo [] l

/-- The merge of `atualizar_planilha_avancado` (lines 975-1016) on the two
row sets (reading the workbook, preserving the other sheets and writing the
file back are I/O): a partition on the key via the outer-merge indicator —
sheet-only rows kept verbatim, in-both keys taking the (deduplicated)
relational row, bank-only rows appended (each block only when non-empty, as
in the source) — then a re-sort by key. -/
def atualizarPlanilhaAvancado (banco excel : List LinhaPlanilha) : List LinhaPlanilha :=
  ordenaPorChave
    ((if (excel.map LinhaPlanilha.chave).filter
          (fun k => k ∈ (dedupChaves banco).map LinhaPlanilha.chave) ≠ [] then
        excel.filter (fun r => r.chave ∈ (excel.map LinhaPlanilha.chave).filter
          (fun k => k ∉ (dedupChaves banco).map LinhaPlanilha.chave)) ++
        (dedupChaves banco).filter (fun r => r.chave ∈ (excel.map LinhaPlanilha.chave).filter
          (fun k => k ∈ (dedupChaves banco).map LinhaPlanilha.chave))
      else
        excel.filter (fun r => r.chave ∈ (excel.map LinhaPlanilha.chave).filter
          (fun k => k ∉ (dedupChaves banco).map LinhaPlanilha.chave))) ++
      (if ((dedupChaves banco).map LinhaPlanilha.chave).filter
          (fun k => k ∉ excel.map LinhaPlanilha.chave) ≠ [] then
        (dedupChaves banco).filter
          (fun r => r.chave ∈ ((dedupChaves banco).map LinhaPlanilha.chave).filter
            (fun k => k ∉ excel.map LinhaPlanilha.chave))
      else []))

/-! ## Claim C9: date coercion and relational sync -/

/-- A Python `datetime.date`. -/
structure PyDate where
  y : Nat
  mon : Nat
  d : Nat
deriving DecidableEq

/-- The fixed, ordered format list of `converter_para_data`
(lines 401-410). -/
def formatosData : List (List FmtTok) :=
  [[.year4, .lit '-', .mon2, .lit '-', .day2],
   [.day2, .lit '/', .mon2, .lit '/', .year4],
   [.day2, .lit '-', .mon2, .lit '-', .year4],
   [.mon2, .lit '/', .day2, .lit '/', .year4],
   [.year4, .lit '/', .mon2, .lit '/', .day2],
   [.day2, .lit '.', .mon2, .lit '.', .year4],
   [.day2, .wsp, .monAbbrev, .wsp, .year4],
   [.day2, .wsp, .monFull, .wsp, .year4]]

/-- The `for formato in formatos_data` loop: first successful
`datetime.strptime(...).date()`. -/
def tryFormatosData : List (List FmtTok) → String → Option PyDate
  | [], _ => none
  | f :: fs, s =>
    match pyStrptime f s with
    | some a => some ⟨a.y, a.mon, a.d⟩
    | none => tryFormatosData fs s

/-- `converter_para_data` (lines 389-424): empty input gives `None`; the
stripped string is tried against the fixed format list in order; on total
failure the permissive external parser `dateutil.parser.parse(_,
dayfirst=True)` decides — it is an external library, passed here as the
`dateutil` parameter (its own failure path already yields `none`, matching
the source's `except: return None`). -/
def converterParaData (dateutil : String → Option PyDate) (dataStr : String) :
    Option PyDate :=
  if dataStr = "" then none
  else
    match tryFormatosData formatosData (pyStrip dataStr) with
    | some d => some d
    | none => dateutil (pyStrip dataStr)

/-- A row of the `dbCONTAINER` table (lines 31-53), with the typed columns
the sync writes; the wall-clock audit columns are omitted. -/
structure RegistroDB where
  id : String
  dataEmbarque : Option PyDate := none
  plantaCarregamento : String := ""
  tipoEmbarque : String := ""
  temperatura : String := ""
  ordem : String
  portoSaida : String := ""
  portoChegada : String := ""
  companhia : String := ""
  navio : String := ""
  dline : String := ""
  reservaBooking : String := ""
  idAutorizacao : String := ""
  resumoEmbarque : String := ""
  transportadorTer : String := ""
  eta : Option PyDate := none
  valorPedido : Option Rat := none
deriving DecidableEq

/-! ## Claim C10: numeric coercion -/

/-- Value of a digit string read left to right. -/
def natOfDigits (l : List Char) : Nat := l.foldl (fun acc c => 10 * acc + digitVal c) 0

/-- Python `float(s)` restricted to the character set this pipeline can feed
it (digits and dots, by construction of `valor_limpo`): defined when the
string has at least one digit and at most one dot, with the exact decimal
value as a rational.  (`float('')`, `float('.')` and multi-dot strings raise,
matching the `none` branch.) -/
def pyFloatQ (l : List Char) : Option Rat :=
  if l ≠ [] ∧ (∀ c ∈ l, c.isDigit ∨ c = '.') ∧ l.count '.' ≤ 1 ∧ (∃ c ∈ l, c.isDigit) then
    some ((natOfDigits (l.takeWhile (fun c => c ≠ '.')) : Rat) +
      (natOfDigits ((l.dropWhile (fun c => c ≠ '.')).drop 1) : Rat) /
        (10 : Rat) ^ ((l.dropWhile (fun c => c ≠ '.')).drop 1).length)
  else none

/-- `converter_para_decimal` (lines 426-441): `re.sub(r'[^\d,]', '', s)`
keeps only digits and commas (dropping the dot among everything else), each
comma becomes a dot, and the result goes through `float`; an empty cleaned
string, or a `float` failure, yields `None`. -/
def converterParaDecimal (valorStr : String) : Option Rat :=
  if valorStr = "" then none
  else if (valorStr.data.filter (fun c => c.isDigit || c = ',')).map
      (fun c => if c = ',' then '.' else c) = [] then none
  else pyFloatQ ((valorStr.data.filter (fun c => c.isDigit || c = ',')).map
      (fun c => if c = ',' then '.' else c))

/-- Index-carrying scan behind
`session.query(ExportacaoDB).filter_by(ordem=ordem).first()`. -/
def buscaAux : List RegistroDB → String → Nat → Option (Nat × RegistroDB)
  | [], _, _ => none
  | r :: resto, ordem, i =>
    if r.ordem = ordem then some (i, r) else buscaAux resto ordem (i + 1)

def buscaPorOrdem (tab : List RegistroDB) (ordem : String) : Option (Nat × RegistroDB) :=
  buscaAux tab ordem 0

/-- Loop body of `sincronizar_json_para_banco` (lines 463-569) on an
in-memory table: skip records with a no-data status, a truthy error, or an
empty stripped key; otherwise coerce the date and money fields and
insert-or-update the row keyed by `ordem`.  `idOf` stands for the surrogate
id `hashlib.md5(ordem).hexdigest()[:50]` (an external hash); the final
commit/rollback is transaction mechanics over the same resulting table. -/
def sincronizarGo (idOf : String → String) (dateutil : String → Option PyDate) :
    List EmailProcessado → List RegistroDB → Nat → Nat → Nat → Nat →
      List RegistroDB × Nat × Nat × Nat × Nat
  | [], tab, ins, atu, ign, err => (tab, ins, atu, ign, err)
  | e :: resto, tab, ins, atu, ign, err =>
    if e.dados.status = some "SEM_DADOS_EXPORTACAO" ∨ erroTruthyB e.dados = true then
      sincronizarGo idOf dateutil resto tab ins atu (ign + 1) err
    else if pyStrip e.dados.ordem = "" then
      sincronizarGo idOf dateutil resto tab ins atu (ign + 1) err
    else
      match buscaPorOrdem tab (pyStrip e.dados.ordem) with
      | some (i, r) =>
        sincronizarGo idOf dateutil resto
          (tab.set i
            { r with
              dataEmbarque := converterParaData dateutil e.dados.dataEmbarque
              plantaCarregamento := e.dados.plantaCarregamento
              tipoEmbarque := e.dados.tipoEmbarque
              temperatura := e.dados.temperatura
              portoSaida := e.dados.portoSaida
              portoChegada := e.dados.portoChegada
              companhia := e.dados.companhia
              navio := e.dados.navio
              dline := e.dados.dline
              reservaBooking := e.dados.reservaBooking
              idAutorizacao := e.dados.idAutorizacao
              resumoEmbarque := e.dados.resumoEmbarque
              transportadorTer := e.dados.transportadorTer
              eta := converterParaData dateutil e.dados.eta
              valorPedido := converterParaDecimal e.dados.valorPedido })
          ins (atu + 1) ign err
      | none =>
        sincronizarGo idOf dateutil resto
          (tab ++ [{ id := idOf (pyStrip e.dados.ordem)
                     dataEmbarque := converterParaData dateutil e.dados.dataEmbarque
                     plantaCarregamento := e.dados.plantaCarregamento
                     tipoEmbarque := e.dados.tipoEmbarque
                     temperatura := e.dados.temperatura
                     ordem := pyStrip e.dados.ordem
                     portoSaida := e.dados.portoSaida
                     portoChegada := e.dados.portoChegada
                     companhia := e.dados.companhia
                     navio := e.dados.navio
                     dline := e.dados.dline
                     reservaBooking := e.dados.reservaBooking
                     idAutorizacao := e.dados.idAutorizacao
                     resumoEmbarque := e.dados.resumoEmbarque
                     transportadorTer := e.dados.transportadorTer
                     eta := converterParaData dateutil e.dados.eta
                     valorPedido := converterParaDecimal e.dados.valorPedido }])
          (ins + 1) atu ign err

def sincronizarJsonParaBanco (idOf : String → String)
    (dateutil : String → Option PyDate) (dados : DadosExistentes)
    (tab : List RegistroDB) : List RegistroDB × Nat × Nat × Nat × Nat :=
  sincronizarGo idOf dateutil dados.emails tab 0 0 0 0

example : pyStrptime fmtEmailData "2024-01-01 10:00:00" =
    some { y := 2024, mon := 1, d := 1, hh := 10, mi := 0, ss := 0 } := by decide

example : pyStrptime fmtEmailData "2024-02-30 10:00:00" = none := by decide

example : compararDatasEmail "2024-01-02 09:00:00" "2024-01-01 10:00:00" = true := by decide

example : compararDatasEmail "2024-01-01 10:00:00" "2024-01-01 10:00:00" = false := by decide

example : compararDatasEmail "garbled" "2024-01-01 10:00:00" = true := by decide

/-! ## Branch equations of the save operation -/

theorem salvar_eq_append (dados : DadosExistentes) (email : EmailProcessado)
    (ordens : List String)
    (h : ¬(pyStrip email.dados.ordem ≠ "" ∧ pyStrip email.dados.ordem ∈ ordens)) :
    salvarJsonIncrementalRapido dados email ordens =
      (true,
        { metadata :=
            { totalEmailsProcessados := (dados.emails ++ [email]).length
              emailsComDados := contarComDados (dados.emails ++ [email])
              ordensUnicas :=
                if pyStrip email.dados.ordem ≠ "" then
                  insertOrdem (pyStrip email.dados.ordem) ordens
                else dados.metadata.ordensUnicas }
          emails := dados.emails ++ [email] },
        if pyStrip email.dados.ordem ≠ "" then
          insertOrdem (pyStrip email.dados.ordem) ordens
        else ordens) := by
  simp only [salvarJsonIncrementalRapido, if_neg h]
  split_ifs <;> rfl

theorem salvar_eq_replace (dados : DadosExistentes) (email : EmailProcessado)
    (ordens : List String) (indice : Nat) (existente : EmailProcessado)
    (h : pyStrip email.dados.ordem ≠ "" ∧ pyStrip email.dados.ordem ∈ ordens)
    (hE : encontrarEmailPorOrdem dados (pyStrip email.dados.ordem) = some (indice, existente))
    (hC : compararDatasEmail email.dataRecebimento existente.dataRecebimento = true) :
    salvarJsonIncrementalRapido dados email ordens =
      (true, { dados with emails := dados.emails.set indice email }, ordens) := by
  simp only [salvarJsonIncrementalRapido, if_pos h, hE, hC, if_pos]

theorem salvar_eq_keep (dados : DadosExistentes) (email : EmailProcessado)
    (ordens : List String) (indice : Nat) (existente : EmailProcessado)
    (h : pyStrip email.dados.ordem ≠ "" ∧ pyStrip email.dados.ordem ∈ ordens)
    (hE : encontrarEmailPorOrdem dados (pyStrip email.dados.ordem) = some (indice, existente))
    (hC : compararDatasEmail email.dataRecebimento existente.dataRecebimento = false) :
    salvarJsonIncrementalRapido dados email ordens = (false, dados, ordens) := by
  simp only [salvarJsonIncrementalRapido, if_pos h, hE, hC, Bool.false_eq_true, if_false]

theorem salvar_eq_semBusca (dados : DadosExistentes) (email : EmailProcessado)
    (ordens : List String)
    (h : pyStrip email.dados.ordem ≠ "" ∧ pyStrip email.dados.ordem ∈ ordens)
    (hE : encontrarEmailPorOrdem dados (pyStrip email.dados.ordem) = none) :
    salvarJsonIncrementalRapido dados email ordens = (false, dados, ordens) := by
  simp only [salvarJsonIncrementalRapido, if_pos h, hE]

theorem countKey_cons (k : String) (x : EmailProcessado) (xs : List EmailProcessado) :
    countKey k (x :: xs) = countKey k xs + (if pyStrip x.dados.ordem = k then 1 else 0) := by
  simp only [countKey, List.filter_cons]
  split <;> simp_all

theorem countKey_append_single (k : String) (l : List EmailProcessado) (e : EmailProcessado) :
    countKey k (l ++ [e]) = countKey k l + (if pyStrip e.dados.ordem = k then 1 else 0) := by
  simp only [countKey, List.filter_append, List.length_append, List.filter_cons,
    List.filter_nil]
  split <;> simp_all

theorem countKey_set (k : String) (l : List EmailProcessado) (i : Nat)
    (e e0 : EmailProcessado) (hget : l.get? i = some e0)
    (hkey : pyStrip e0.dados.ordem = pyStrip e.dados.ordem) :
    countKey k (l.set i e) = countKey k l := by
  induction l generalizing i with
  | nil => simp at hget
  | cons x xs ih =>
    cases i with
    | zero =>
      simp only [List.get?_cons_zero, Option.some.injEq] at hget
      subst hget
      simp only [List.set_cons_zero, countKey_cons, hkey]
    | succ j =>
      simp only [List.get?_cons_succ] at hget
      simp only [List.set_cons_succ, countKey_cons, ih j hget]

theorem exists_of_countKey_pos {k : String} {l : List EmailProcessado}
    (h : 0 < countKey k l) : ∃ x ∈ l, pyStrip x.dados.ordem = k := by
  unfold countKey at h
  rcases List.exists_mem_of_length_pos h with ⟨x, hx⟩
  rcases List.mem_filter.mp hx with ⟨hmem, hp⟩
  exact ⟨x, hmem, by simpa using hp⟩

theorem mem_of_mem_set {α : Type} {l : List α} {i : Nat} {a b : α}
    (h : b ∈ l.set i a) : b = a ∨ b ∈ l := by
  induction l generalizing i with
  | nil => simp at h
  | cons x xs ih =>
    cases i with
    | zero =>
      rcases List.mem_cons.mp h with h1 | h1
      · exact Or.inl h1
      · exact Or.inr (List.mem_cons_of_mem _ h1)
    | succ j =>
      rcases List.mem_cons.mp h with h1 | h1
      · exact Or.inr (h1 ▸ List.mem_cons_self _ _)
      · rcases ih h1 with h2 | h2
        · exact Or.inl h2
        · exact Or.inr (List.mem_cons_of_mem _ h2)

theorem encontrarAux_some (l : List EmailProcessado) (k : String) :
    ∀ (n i : Nat) (ex : EmailProcessado), encontrarAux l k n = some (i, ex) →
      n ≤ i ∧ l.get? (i - n) = some ex ∧ pyStrip ex.dados.ordem = k := by
  induction l with
  | nil => intro n i ex h; simp [encontrarAux] at h
  | cons x xs ih =>
    intro n i ex h
    simp only [encontrarAux] at h
    by_cases hx : pyStrip x.dados.ordem = k
    · rw [if_pos hx] at h
      simp only [Option.some.injEq, Prod.mk.injEq] at h
      obtain ⟨hi, hex⟩ := h
      subst hi; subst hex
      exact ⟨Nat.le_refl _, by simp, hx⟩
    · rw [if_neg hx] at h
      obtain ⟨h1, h2, h3⟩ := ih (n + 1) i ex h
      refine ⟨by omega, ?_, h3⟩
      have hin : i - n = (i - (n + 1)) + 1 := by omega
      rw [hin, List.get?_cons_succ]
      exact h2

theorem encontrar_spec {dados : DadosExistentes} {k : String} {i : Nat}
    {ex : EmailProcessado} (h : encontrarEmailPorOrdem dados k = some (i, ex)) :
    dados.emails.get? i = some ex ∧ pyStrip ex.dados.ordem = k := by
  obtain ⟨_, h2, h3⟩ := encontrarAux_some dados.emails k 0 i ex h
  rw [Nat.sub_zero] at h2
  exact ⟨h2, h3⟩

theorem mem_insertOrdem_of_mem {a k : String} {s : List String} (h : a ∈ s) :
    a ∈ insertOrdem k s := by
  unfold insertOrdem; split <;> simp [h]

theorem self_mem_insertOrdem (k : String) (s : List String) : k ∈ insertOrdem k s := by
  unfold insertOrdem; split <;> simp_all

theorem storeInv_salvar {st : DadosExistentes} {ordens : List String}
    (h : StoreInv st ordens) (e : EmailProcessado) :
    StoreInv (salvarJsonIncrementalRapido st e ordens).2.1
      (salvarJsonIncrementalRapido st e ordens).2.2 := by
  by_cases hc : pyStrip e.dados.ordem ≠ "" ∧ pyStrip e.dados.ordem ∈ ordens
  · rcases hE : encontrarEmailPorOrdem st (pyStrip e.dados.ordem) with _ | ⟨i, ex⟩
    · rw [salvar_eq_semBusca st e ordens hc hE]; exact h
    · by_cases hC : compararDatasEmail e.dataRecebimento ex.dataRecebimento = true
      · rw [salvar_eq_replace st e ordens i ex hc hE hC]
        obtain ⟨hget, hkey⟩ := encontrar_spec hE
        constructor
        · intro x hx _
          rcases mem_of_mem_set hx with h1 | h1
          · subst h1; exact hc.2
          · by_cases hxe : pyStrip x.dados.ordem = ""
            · simp_all
            · exact h.1 x h1 hxe
        · intro k hk
          rw [countKey_set k st.emails i e ex hget hkey]
          exact h.2 k hk
      · rw [salvar_eq_keep st e ordens i ex hc hE (by simpa using hC)]; exact h
  · rw [salvar_eq_append st e ordens hc]
    dsimp only
    push_neg at hc
    constructor
    · intro x hx hxne
      rcases List.mem_append.mp hx with h1 | h1
      · have := h.1 x h1 hxne
        split
        · exact mem_insertOrdem_of_mem this
        · exact this
      · have hxeq : x = e := by simpa using h1
        subst hxeq
        rw [if_pos hxne]
        exact self_mem_insertOrdem _ _
    · intro k hk
      rw [countKey_append_single]
      by_cases hke : pyStrip e.dados.ordem = k
      · have hne : pyStrip e.dados.ordem ≠ "" := by rw [hke]; exact hk
        have hnotin : pyStrip e.dados.ordem ∉ ordens := hc hne
        have hzero : countKey k st.emails = 0 := by
          by_contra hpos
          obtain ⟨x, hxmem, hxkey⟩ := exists_of_countKey_pos (Nat.pos_of_ne_zero hpos)
          have : pyStrip x.dados.ordem ∈ ordens := h.1 x hxmem (by rw [hxkey]; exact hk)
          rw [hxkey, ← hke] at this
          exact hnotin this
        rw [hzero, if_pos hke]
      · rw [if_neg hke]
        have := h.2 k hk
        omega

theorem storeInv_runInsertsFrom (es : List EmailProcessado) :
    ∀ (st : DadosExistentes) (ordens : List String), StoreInv st ordens →
      StoreInv (runInsertsFrom st ordens es).1 (runInsertsFrom st ordens es).2 := by
  induction es with
  | nil => intro st ordens h; simpa [runInsertsFrom] using h
  | cons e es ih =>
    intro st ordens h
    simp only [runInsertsFrom]
    exact ih _ _ (storeInv_salvar h e)

/-! ## Order properties of the datetime comparison -/

theorem dtLtB_irrefl (a : TmAcc) : dtLtB a a = false := by simp [dtLtB]

theorem dtLtB_asymm {a b : TmAcc} (h : dtLtB a b = true) : dtLtB b a = false := by
  unfold dtLtB at h ⊢
  split_ifs at h ⊢ <;> simp_all <;> omega

/-! ## Claim C1 -/

/-- Claim C1: for every sequence of documents inserted through
`salvar_json_incremental_rapido` starting from the empty store (and the
matching empty `ordens_existentes` set), and every non-empty order key `k`,
the resulting store contains at most one document whose stripped order key
equals `k`; a conflicting candidate replaces in place or is rejected, never
appended. -/
theorem claim1_at_most_one_per_key (es : List EmailProcessado) (k : String) (hk : k ≠ "") :
    countKey k (runInserts es).1.emails ≤ 1 := by
  have hinv : StoreInv dadosVazios [] := by
    constructor
    · intro e he; simp [dadosVazios] at he
    · intro k2 _; simp [dadosVazios, countKey]
  exact (storeInv_runInsertsFrom es dadosVazios [] hinv).2 k hk

theorem claim1_witness :
    countKey "ORD1" (runInserts [docOrd1A, docOrd1B]).1.emails ≤ 1 :=
  claim1_at_most_one_per_key [docOrd1A, docOrd1B] "ORD1" (by decide)

/-! ## Claim C2 -/

/-- Claim C2: `comparar_datas_email` parses both timestamps in the fixed
layout `YYYY-MM-DD HH:MM:SS`; when both parse it returns `True` exactly when
the candidate is strictly later than the existing timestamp (so equal
timestamps give `False`, KEEP), and whenever either side fails to parse it
returns `True` (REPLACE), for all input strings. -/
theorem claim2_comparar_datas_email (s1 s2 : String) :
    (∀ a b, pyStrptime fmtEmailData s1 = some a → pyStrptime fmtEmailData s2 = some b →
      compararDatasEmail s1 s2 = dtLtB b a) ∧
    ((pyStrptime fmtEmailData s1 = none ∨ pyStrptime fmtEmailData s2 = none) →
      compararDatasEmail s1 s2 = true) ∧
    (∀ a, pyStrptime fmtEmailData s1 = some a → pyStrptime fmtEmailData s2 = some a →
      compararDatasEmail s1 s2 = false) := by
  refine ⟨?_, ?_, ?_⟩
  · intro a b h1 h2
    simp [compararDatasEmail, h1, h2]
  · intro h
    rcases h with h | h
    · rcases hp2 : pyStrptime fmtEmailData s2 with _ | b <;>
        simp [compararDatasEmail, h, hp2]
    · rcases hp1 : pyStrptime fmtEmailData s1 with _ | a <;>
        simp [compararDatasEmail, h, hp1]
  · intro a h1 h2
    simp [compararDatasEmail, h1, h2, dtLtB_irrefl]

theorem claim2_witness :
    compararDatasEmail "2024-01-02 09:00:00" "2024-01-01 10:00:00" =
      dtLtB { y := 2024, mon := 1, d := 1, hh := 10 } { y := 2024, mon := 1, d := 2, hh := 9 } :=
  (claim2_comparar_datas_email "2024-01-02 09:00:00" "2024-01-01 10:00:00").1
    { y := 2024, mon := 1, d := 2, hh := 9 } { y := 2024, mon := 1, d := 1, hh := 10 }
    (by decide) (by decide)

/-! ## Claim C7 -/

/-- Claim C7: a document whose stripped order key is empty is always appended
(`sucesso = True`), never rejected or used for replacement, and such a save
leaves both the `ordens_existentes` set and the stored `ordens_unicas` list
unchanged; in particular two empty-key inserts from the empty store leave two
stored documents and an untouched key set. -/
theorem claim7_empty_key_append :
    (∀ (st : DadosExistentes) (ordens : List String) (e : EmailProcessado),
      pyStrip e.dados.ordem = "" →
      (salvarJsonIncrementalRapido st e ordens).1 = true ∧
      (salvarJsonIncrementalRapido st e ordens).2.1.emails = st.emails ++ [e] ∧
      (salvarJsonIncrementalRapido st e ordens).2.2 = ordens ∧
      (salvarJsonIncrementalRapido st e ordens).2.1.metadata.ordensUnicas =
        st.metadata.ordensUnicas) ∧
    (∀ e1 e2 : EmailProcessado, pyStrip e1.dados.ordem = "" → pyStrip e2.dados.ordem = "" →
      (runInserts [e1, e2]).1.emails = [e1, e2] ∧ (runInserts [e1, e2]).2 = []) := by
  have hmain : ∀ (st : DadosExistentes) (ordens : List String) (e : EmailProcessado),
      pyStrip e.dados.ordem = "" →
      (salvarJsonIncrementalRapido st e ordens).1 = true ∧
      (salvarJsonIncrementalRapido st e ordens).2.1.emails = st.emails ++ [e] ∧
      (salvarJsonIncrementalRapido st e ordens).2.2 = ordens ∧
      (salvarJsonIncrementalRapido st e ordens).2.1.metadata.ordensUnicas =
        st.metadata.ordensUnicas := by
    intro st ordens e he
    rw [salvar_eq_append st e ordens (by simp [he])]
    dsimp only
    refine ⟨rfl, rfl, ?_, ?_⟩ <;> simp [he]
  refine ⟨hmain, ?_⟩
  intro e1 e2 h1 h2
  simp only [runInserts, runInsertsFrom]
  constructor
  · rw [(hmain _ _ e2 h2).2.1, (hmain _ _ e1 h1).2.1]
    simp [dadosVazios]
  · rw [(hmain _ _ e2 h2).2.2.1, (hmain _ _ e1 h1).2.2.1]

theorem claim7_witness :
    (runInserts [docSemOrdem, docSemOrdem]).1.emails = [docSemOrdem, docSemOrdem] ∧
    (runInserts [docSemOrdem, docSemOrdem]).2 = [] :=
  claim7_empty_key_append.2 docSemOrdem docSemOrdem (by decide) (by decide)

/-! ## Claim C3 -/

/-- Claim C3: two documents carrying the same non-empty order key whose
receipt timestamps both parse, with `d1` strictly earlier than `d2`, leave the
store — when saved in either order starting from the empty store — holding
exactly the document with timestamp `d2`. -/
theorem claim3_recency_convergence (e1 e2 : EmailProcessado) (k : String)
    (d1 d2 : TmAcc) (hk : k ≠ "")
    (h1 : pyStrip e1.dados.ordem = k) (h2 : pyStrip e2.dados.ordem = k)
    (hp1 : pyStrptime fmtEmailData e1.dataRecebimento = some d1)
    (hp2 : pyStrptime fmtEmailData e2.dataRecebimento = some d2)
    (hlt : dtLtB d1 d2 = true) :
    (runInserts [e1, e2]).1.emails = [e2] ∧ (runInserts [e2, e1]).1.emails = [e2] := by
  have hstep1 : ∀ e : EmailProcessado, pyStrip e.dados.ordem = k →
      salvarJsonIncrementalRapido dadosVazios e [] =
        (true, ⟨⟨1, contarComDados [e], [k]⟩, [e]⟩, [k]) := by
    intro e he
    rw [salvar_eq_append dadosVazios e [] (by simp)]
    simp [dadosVazios, he, hk, insertOrdem]
  constructor
  · have hC : compararDatasEmail e2.dataRecebimento e1.dataRecebimento = true := by
      simp [compararDatasEmail, hp1, hp2, hlt]
    have hE : encontrarEmailPorOrdem ⟨⟨1, contarComDados [e1], [k]⟩, [e1]⟩
        (pyStrip e2.dados.ordem) = some (0, e1) := by
      simp [encontrarEmailPorOrdem, encontrarAux, h1, h2]
    have hs2 := salvar_eq_replace ⟨⟨1, contarComDados [e1], [k]⟩, [e1]⟩ e2 [k] 0 e1
      (by rw [h2]; exact ⟨hk, by simp⟩) hE hC
    simp only [runInserts, runInsertsFrom, hstep1 e1 h1, hs2]
    simp
  · have hC : compararDatasEmail e1.dataRecebimento e2.dataRecebimento = false := by
      simp [compararDatasEmail, hp1, hp2, dtLtB_asymm hlt]
    have hE : encontrarEmailPorOrdem ⟨⟨1, contarComDados [e2], [k]⟩, [e2]⟩
        (pyStrip e1.dados.ordem) = some (0, e2) := by
      simp [encontrarEmailPorOrdem, encontrarAux, h1, h2]
    have hs2 := salvar_eq_keep ⟨⟨1, contarComDados [e2], [k]⟩, [e2]⟩ e1 [k] 0 e2
      (by rw [h1]; exact ⟨hk, by simp⟩) hE hC
    simp only [runInserts, runInsertsFrom, hstep1 e2 h2, hs2]

theorem claim3_witness :
    (runInserts [docOrd1A, docOrd1B]).1.emails = [docOrd1B] ∧
    (runInserts [docOrd1B, docOrd1A]).1.emails = [docOrd1B] :=
  claim3_recency_convergence docOrd1A docOrd1B "ORD1"
    { y := 2024, mon := 1, d := 1, hh := 10 } { y := 2024, mon := 1, d := 2, hh := 9 }
    (by decide) (by decide) (by decide) (by decide) (by decide) (by decide)

/-- Claim C4 (refuting the code's conformance): if the durable write is
interrupted between the in-place truncation and the completed dump, the
observable file state is the truncated artifact, which is not the previously
committed snapshot — the prior committed state is destroyed before the new
state is durable, so the mutation is not durable-write-then-commit. -/
theorem claim4_midwrite_loses_committed_state :
    (persistSteps storeComprometido
        { metadata :=
            { totalEmailsProcessados := 2, emailsComDados := 2, ordensUnicas := ["ORD1"] }
          emails := [docOrd1A, docOrd1B] }).get? 1 = some none ∧
    (none : Option DadosExistentes) ≠ some storeComprometido := by
  exact ⟨rfl, by simp⟩

/-! ## Claim C5 -/

theorem salvar_pres_total {st : DadosExistentes} (ordens : List String)
    (h : st.metadata.totalEmailsProcessados = st.emails.length) (e : EmailProcessado) :
    (salvarJsonIncrementalRapido st e ordens).2.1.metadata.totalEmailsProcessados =
      (salvarJsonIncrementalRapido st e ordens).2.1.emails.length := by
  by_cases hc : pyStrip e.dados.ordem ≠ "" ∧ pyStrip e.dados.ordem ∈ ordens
  · rcases hE : encontrarEmailPorOrdem st (pyStrip e.dados.ordem) with _ | ⟨i, ex⟩
    · rw [salvar_eq_semBusca st e ordens hc hE]; exact h
    · by_cases hC : compararDatasEmail e.dataRecebimento ex.dataRecebimento = true
      · rw [salvar_eq_replace st e ordens i ex hc hE hC]
        dsimp only
        rw [List.length_set]; exact h
      · rw [salvar_eq_keep st e ordens i ex hc hE (by simpa using hC)]; exact h
  · rw [salvar_eq_append st e ordens hc]

theorem runInsertsFrom_total (es : List EmailProcessado) :
    ∀ (st : DadosExistentes) (ordens : List String),
      st.metadata.totalEmailsProcessados = st.emails.length →
      (runInsertsFrom st ordens es).1.metadata.totalEmailsProcessados =
        (runInsertsFrom st ordens es).1.emails.length := by
  induction es with
  | nil => intro st ordens h; simpa [runInsertsFrom] using h
  | cons e es ih =>
    intro st ordens h
    simp only [runInsertsFrom]
    exact ih _ _ (salvar_pres_total ordens h e)

/-- Claim C5 as stated is false: after inserting one empty-key document whose
status is `TEXTO_MUITO_CURTO`, the stored `emails_com_dados` is 1, while the
number of documents that are valid in the spec's sense (non-empty order key,
no error/no-data marker) is 0. -/
theorem claim5_counterexample :
    (runInserts [docTextoCurto]).1.metadata.emailsComDados = 1 ∧
    contarSpecValid (runInserts [docTextoCurto]).1.emails = 0 ∧
    (runInserts [docTextoCurto]).1.metadata.emailsComDados ≠
      contarSpecValid (runInserts [docTextoCurto]).1.emails := by
  refine ⟨by decide, by decide, by decide⟩

/-- Claim C5 (amended): after any save sequence from the empty store,
`total_emails_processados` equals the number of stored emails.
`emails_com_dados` equals the number of stored documents whose record has no
truthy `erro` field and whose status is not `SEM_DADOS_EXPORTACAO` — with no
requirement on the order key — after every save that appends a document; a
save that does not grow the store (replace or reject) leaves
`emails_com_dados` unchanged rather than recomputing it. -/
theorem claim5_metadata_consistency :
    (∀ es : List EmailProcessado,
      (runInserts es).1.metadata.totalEmailsProcessados = (runInserts es).1.emails.length) ∧
    (∀ (st : DadosExistentes) (ordens : List String) (e : EmailProcessado),
      (salvarJsonIncrementalRapido st e ordens).2.1.emails.length = st.emails.length + 1 →
      (salvarJsonIncrementalRapido st e ordens).2.1.metadata.emailsComDados =
        contarComDados (salvarJsonIncrementalRapido st e ordens).2.1.emails) ∧
    (∀ (st : DadosExistentes) (ordens : List String) (e : EmailProcessado),
      (salvarJsonIncrementalRapido st e ordens).2.1.emails.length = st.emails.length →
      (salvarJsonIncrementalRapido st e ordens).2.1.metadata.emailsComDados =
        st.metadata.emailsComDados) := by
  refine ⟨?_, ?_, ?_⟩
  · intro es
    exact runInsertsFrom_total es dadosVazios [] (by simp [dadosVazios])
  · intro st ordens e hlen
    by_cases hc : pyStrip e.dados.ordem ≠ "" ∧ pyStrip e.dados.ordem ∈ ordens
    · rcases hE : encontrarEmailPorOrdem st (pyStrip e.dados.ordem) with _ | ⟨i, ex⟩
      · rw [salvar_eq_semBusca st e ordens hc hE] at hlen; simp at hlen
      · by_cases hC : compararDatasEmail e.dataRecebimento ex.dataRecebimento = true
        · rw [salvar_eq_replace st e ordens i ex hc hE hC] at hlen
          simp only [List.length_set] at hlen
          omega
        · rw [salvar_eq_keep st e ordens i ex hc hE (by simpa using hC)] at hlen
          simp at hlen
    · rw [salvar_eq_append st e ordens hc]
  · intro st ordens e hlen
    by_cases hc : pyStrip e.dados.ordem ≠ "" ∧ pyStrip e.dados.ordem ∈ ordens
    · rcases hE : encontrarEmailPorOrdem st (pyStrip e.dados.ordem) with _ | ⟨i, ex⟩
      · rw [salvar_eq_semBusca st e ordens hc hE]
      · by_cases hC : compararDatasEmail e.dataRecebimento ex.dataRecebimento = true
        · rw [salvar_eq_replace st e ordens i ex hc hE hC]
        · rw [salvar_eq_keep st e ordens i ex hc hE (by simpa using hC)]
    · rw [salvar_eq_append st e ordens hc] at hlen ⊢
      simp at hlen

theorem claim5_witness :
    (salvarJsonIncrementalRapido dadosVazios docOrd1A []).2.1.metadata.emailsComDados =
      contarComDados (salvarJsonIncrementalRapido dadosVazios docOrd1A []).2.1.emails :=
  claim5_metadata_consistency.2.1 dadosVazios [] docOrd1A (by decide)

/-! ## Claim C8: batch processing and sequence numbers -/

theorem salvar_fail_state {st : DadosExistentes} {ordens : List String}
    {e : EmailProcessado} (h : (salvarJsonIncrementalRapido st e ordens).1 = false) :
    (salvarJsonIncrementalRapido st e ordens).2.1 = st ∧
    (salvarJsonIncrementalRapido st e ordens).2.2 = ordens := by
  by_cases hc : pyStrip e.dados.ordem ≠ "" ∧ pyStrip e.dados.ordem ∈ ordens
  · rcases hE : encontrarEmailPorOrdem st (pyStrip e.dados.ordem) with _ | ⟨i, ex⟩
    · rw [salvar_eq_semBusca st e ordens hc hE]; exact ⟨rfl, rfl⟩
    · by_cases hC : compararDatasEmail e.dataRecebimento ex.dataRecebimento = true
      · rw [salvar_eq_replace st e ordens i ex hc hE hC] at h; simp at h
      · rw [salvar_eq_keep st e ordens i ex hc hE (by simpa using hC)]; exact ⟨rfl, rfl⟩
  · rw [salvar_eq_append st e ordens hc] at h; simp at h

theorem salvar_total_mono {st : DadosExistentes} (ordens : List String)
    (h : st.metadata.totalEmailsProcessados = st.emails.length) (e : EmailProcessado) :
    st.metadata.totalEmailsProcessados ≤
      (salvarJsonIncrementalRapido st e ordens).2.1.metadata.totalEmailsProcessados := by
  by_cases hc : pyStrip e.dados.ordem ≠ "" ∧ pyStrip e.dados.ordem ∈ ordens
  · rcases hE : encontrarEmailPorOrdem st (pyStrip e.dados.ordem) with _ | ⟨i, ex⟩
    · rw [salvar_eq_semBusca st e ordens hc hE]
    · by_cases hC : compararDatasEmail e.dataRecebimento ex.dataRecebimento = true
      · rw [salvar_eq_replace st e ordens i ex hc hE hC]
      · rw [salvar_eq_keep st e ordens i ex hc hE (by simpa using hC)]
  · rw [salvar_eq_append st e ordens hc]
    dsimp only
    rw [List.length_append, h]
    simp

theorem numerosSucesso_cons_true (n : Nat) (tr : List (Nat × Bool)) :
    numerosSucesso ((n, true) :: tr) = n :: numerosSucesso tr := by
  simp [numerosSucesso]

theorem numerosSucesso_cons_false (n : Nat) (tr : List (Nat × Bool)) :
    numerosSucesso ((n, false) :: tr) = numerosSucesso tr := by
  simp [numerosSucesso]

theorem processarLoteGo_trace_spec (lote : List ItemEmail) :
    ∀ (p dup atu : Nat) (st : DadosExistentes) (ordens : List String),
      st.metadata.totalEmailsProcessados = st.emails.length →
      (∀ n ∈ numerosSucesso (processarLoteGo p dup atu st ordens lote).trace,
        st.metadata.totalEmailsProcessados + p + 1 ≤ n) ∧
      List.Pairwise (· < ·) (numerosSucesso (processarLoteGo p dup atu st ordens lote).trace) ∧
      ((processarLoteGo p dup atu st ordens lote).trace.map Prod.fst).head? =
        lote.head?.map (fun _ => st.metadata.totalEmailsProcessados + p + 1) := by
  induction lote with
  | nil =>
    intro p dup atu st ordens _
    simp [processarLoteGo, numerosSucesso]
  | cons item rest ih =>
    intro p dup atu st ordens hinv
    rcases hsv : salvarJsonIncrementalRapido st
        { numeroEmail := st.metadata.totalEmailsProcessados + p + 1, assunto := item.assunto
          dataRecebimento := item.dataStr, remetente := item.remetente, dados := item.dados }
        ordens with ⟨b, st2, ordens2⟩
    cases b
    · have hb : (salvarJsonIncrementalRapido st
          { numeroEmail := st.metadata.totalEmailsProcessados + p + 1, assunto := item.assunto
            dataRecebimento := item.dataStr, remetente := item.remetente, dados := item.dados }
          ordens).1 = false := by rw [hsv]
      have hfail := salvar_fail_state hb
      rw [hsv] at hfail
      obtain ⟨hst2, hor2⟩ := hfail
      dsimp only at hst2 hor2
      obtain ⟨ihb, ihp, ihh⟩ := ih p (dup + 1)
        (if contaAtualizacao st ordens item then atu + 1 else atu) st2 ordens2
        (by rw [hst2]; exact hinv)
      rw [hst2] at ihb ihp
      simp only [processarLoteGo, hsv]
      rw [numerosSucesso_cons_false, hst2]
      exact ⟨ihb, ihp, by simp⟩
    · have hinv2 : st2.metadata.totalEmailsProcessados = st2.emails.length := by
        have h2 := salvar_pres_total ordens hinv
          { numeroEmail := st.metadata.totalEmailsProcessados + p + 1, assunto := item.assunto
            dataRecebimento := item.dataStr, remetente := item.remetente, dados := item.dados }
        rwa [hsv] at h2
      have hmono : st.metadata.totalEmailsProcessados ≤
          st2.metadata.totalEmailsProcessados := by
        have h2 := salvar_total_mono ordens hinv
          { numeroEmail := st.metadata.totalEmailsProcessados + p + 1, assunto := item.assunto
            dataRecebimento := item.dataStr, remetente := item.remetente, dados := item.dados }
        rwa [hsv] at h2
      obtain ⟨ihb, ihp, ihh⟩ := ih (p + 1) dup
        (if contaAtualizacao st ordens item then atu + 1 else atu) st2 ordens2 hinv2
      simp only [processarLoteGo, hsv]
      rw [numerosSucesso_cons_true]
      refine ⟨?_, ?_, by simp⟩
      · intro n hn
        rcases List.mem_cons.mp hn with hn | hn
        · omega
        · have := ihb n hn
          omega
      · refine List.pairwise_cons.mpr ⟨?_, ihp⟩
        intro n hn
        have := ihb n hn
        omega

/-- Claim C8 (amended): within a single batch the first document is numbered
`pre-batch total + 1`, and the numbers assigned to documents whose save
succeeded are strictly increasing (each number is `current total +
successes-so-far + 1`).  Store-wide uniqueness across batches does not hold —
a replacement stores a fresh number without growing the total (see the
counterexample). -/
theorem claim8_numero_monotone_within_batch (lote : List ItemEmail)
    (st : DadosExistentes) (ordens : List String)
    (h : st.metadata.totalEmailsProcessados = st.emails.length) :
    List.Pairwise (· < ·) (numerosSucesso (processarLoteEmails lote st ordens).trace) ∧
    ((processarLoteEmails lote st ordens).trace.map Prod.fst).head? =
      lote.head?.map (fun _ => st.metadata.totalEmailsProcessados + 1) := by
  obtain ⟨_, hp, hh⟩ := processarLoteGo_trace_spec lote 0 0 0 st ordens h
  exact ⟨hp, hh⟩

/-- Claim C8 as stated is false across batches: batch 1 inserts key "A"
(number 1, total 1); batch 2 replaces it with a newer document for "A"
(number 2, total still 1); batch 3 inserts key "B", which is numbered
`1 + 0 + 1 = 2` again — the store then holds two documents both numbered 2. -/
theorem claim8_counterexample :
    loteRun3.dados.emails.map EmailProcessado.numeroEmail = [2, 2] ∧
    ¬ List.Pairwise (fun a b => a ≠ b)
      (loteRun3.dados.emails.map EmailProcessado.numeroEmail) := by
  exact ⟨by decide, by decide⟩

theorem claim8_witness :
    List.Pairwise (· < ·)
      (numerosSucesso (processarLoteEmails [itemOrdA1, itemOrdB1] dadosVazios []).trace) ∧
    ((processarLoteEmails [itemOrdA1, itemOrdB1] dadosVazios []).trace.map Prod.fst).head? =
      [itemOrdA1, itemOrdB1].head?.map
        (fun _ => dadosVazios.metadata.totalEmailsProcessados + 1) :=
  claim8_numero_monotone_within_batch [itemOrdA1, itemOrdB1] dadosVazios [] (by decide)

theorem insereOrdenado_perm (r : LinhaPlanilha) (l : List LinhaPlanilha) :
    List.Perm (insereOrdenado r l) (r :: l) := by
  induction l with
  | nil => simp [insereOrdenado]
  | cons x xs ih =>
    simp only [insereOrdenado]
    split
    · exact List.Perm.refl _
    · exact (List.Perm.cons x ih).trans (List.Perm.swap r x xs)

theorem ordenaPorChave_perm (l : List LinhaPlanilha) :
    List.Perm (ordenaPorChave l) l := by
  induction l with
  | nil => simp [ordenaPorChave]
  | cons x xs ih =>
    simp only [ordenaPorChave, List.foldr_cons]
    exact (insereOrdenado_perm x _).trans (List.Perm.cons x ih)

theorem filter_chave_notin_only (l : List LinhaPlanilha) (ks ksB : List String)
    (hl : ∀ r ∈ l, r.chave ∈ ks) :
    l.filter (fun r => r.chave ∈ ks.filter (fun k => k ∉ ksB)) =
      l.filter (fun r => r.chave ∉ ksB) := by
  apply List.filter_congr
  intro r hr
  simp [List.mem_filter, hl r hr]

theorem filter_chave_in_only (l : List LinhaPlanilha) (ks ksB : List String)
    (hl : ∀ r ∈ l, r.chave ∈ ksB) :
    l.filter (fun r => r.chave ∈ ks.filter (fun k => k ∈ ksB)) =
      l.filter (fun r => r.chave ∈ ks) := by
  apply List.filter_congr
  intro r hr
  simp [List.mem_filter, hl r hr]

theorem if_nonvazio_eq_filter (c : List String) (l : List LinhaPlanilha)
    (p : LinhaPlanilha → Bool) (hp : c = [] → l.filter p = []) :
    (if c ≠ [] then l.filter p else []) = l.filter p := by
  split
  · rfl
  · next h =>
    rw [hp (by simpa using h)]

/-- Normal form of the merge, up to permutation: the sheet rows whose key the
relational store does not know, followed by the whole deduplicated relational
row set. -/
theorem planilha_perm (banco excel : List LinhaPlanilha) :
    List.Perm (atualizarPlanilhaAvancado banco excel)
      (excel.filter (fun r => r.chave ∉ (dedupChaves banco).map LinhaPlanilha.chave) ++
        dedupChaves banco) := by
  unfold atualizarPlanilhaAvancado
  refine (ordenaPorChave_perm _).trans ?_
  have hexcel : ∀ r ∈ excel, r.chave ∈ excel.map LinhaPlanilha.chave :=
    fun r hr => List.mem_map_of_mem _ hr
  have hprep : ∀ r ∈ dedupChaves banco,
      r.chave ∈ (dedupChaves banco).map LinhaPlanilha.chave :=
    fun r hr => List.mem_map_of_mem _ hr
  have h0 : excel.filter (fun r => r.chave ∈
        (excel.map LinhaPlanilha.chave).filter
          (fun k => k ∉ (dedupChaves banco).map LinhaPlanilha.chave)) =
      excel.filter (fun r => r.chave ∉ (dedupChaves banco).map LinhaPlanilha.chave) :=
    filter_chave_notin_only excel _ _ hexcel
  have hboth : (dedupChaves banco).filter (fun r => r.chave ∈
        (excel.map LinhaPlanilha.chave).filter
          (fun k => k ∈ (dedupChaves banco).map LinhaPlanilha.chave)) =
      (dedupChaves banco).filter (fun r => r.chave ∈ excel.map LinhaPlanilha.chave) :=
    filter_chave_in_only _ _ _ hprep
  have honly : (dedupChaves banco).filter (fun r => r.chave ∈
        ((dedupChaves banco).map LinhaPlanilha.chave).filter
          (fun k => k ∉ excel.map LinhaPlanilha.chave)) =
      (dedupChaves banco).filter (fun r => r.chave ∉ excel.map LinhaPlanilha.chave) :=
    filter_chave_notin_only _ _ _ hprep
  have hifA : (if (excel.map LinhaPlanilha.chave).filter
        (fun k => k ∈ (dedupChaves banco).map LinhaPlanilha.chave) ≠ [] then
      excel.filter (fun r => r.chave ∈ (excel.map LinhaPlanilha.chave).filter
        (fun k => k ∉ (dedupChaves banco).map LinhaPlanilha.chave)) ++
      (dedupChaves banco).filter (fun r => r.chave ∈ (excel.map LinhaPlanilha.chave).filter
        (fun k => k ∈ (dedupChaves banco).map LinhaPlanilha.chave))
    else
      excel.filter (fun r => r.chave ∈ (excel.map LinhaPlanilha.chave).filter
        (fun k => k ∉ (dedupChaves banco).map LinhaPlanilha.chave))) =
      excel.filter (fun r => r.chave ∈ (excel.map LinhaPlanilha.chave).filter
        (fun k => k ∉ (dedupChaves banco).map LinhaPlanilha.chave)) ++
      (dedupChaves banco).filter (fun r => r.chave ∈ (excel.map LinhaPlanilha.chave).filter
        (fun k => k ∈ (dedupChaves banco).map LinhaPlanilha.chave)) := by
    split
    · rfl
    · next h =>
      have hnil : (excel.map LinhaPlanilha.chave).filter
          (fun k => k ∈ (dedupChaves banco).map LinhaPlanilha.chave) = [] := by
        simpa using h
      rw [hnil]
      simp
  have hifB : (if ((dedupChaves banco).map LinhaPlanilha.chave).filter
        (fun k => k ∉ excel.map LinhaPlanilha.chave) ≠ [] then
      (dedupChaves banco).filter
        (fun r => r.chave ∈ ((dedupChaves banco).map LinhaPlanilha.chave).filter
          (fun k => k ∉ excel.map LinhaPlanilha.chave))
    else []) =
      (dedupChaves banco).filter
        (fun r => r.chave ∈ ((dedupChaves banco).map LinhaPlanilha.chave).filter
          (fun k => k ∉ excel.map LinhaPlanilha.chave)) := by
    apply if_nonvazio_eq_filter
    intro hc
    rw [hc]
    simp
  rw [hifA, hifB, h0, hboth, honly, List.append_assoc]
  refine List.Perm.append_left _ ?_
  have hsplit := List.filter_append_perm
    (fun r => r.chave ∈ excel.map LinhaPlanilha.chave) (dedupChaves banco)
  simp only [decide_not]
  exact hsplit

/-- Claim C6: the spreadsheet reconciliation is idempotent — re-running the
merge on its own output with the relational rows unchanged yields a
permutation of the first output (hence exactly the same row set): sheet-only
rows stay verbatim, store-only rows stay appended, in-both keys keep the
relational row, and the result is re-sorted by the business key. -/
theorem claim6_reconciliacao_idempotente (banco excel : List LinhaPlanilha) :
    List.Perm (atualizarPlanilhaAvancado banco (atualizarPlanilhaAvancado banco excel))
      (atualizarPlanilhaAvancado banco excel) ∧
    ∀ r : LinhaPlanilha,
      r ∈ atualizarPlanilhaAvancado banco (atualizarPlanilhaAvancado banco excel) ↔
        r ∈ atualizarPlanilhaAvancado banco excel := by
  have hperm : List.Perm
      (atualizarPlanilhaAvancado banco (atualizarPlanilhaAvancado banco excel))
      (atualizarPlanilhaAvancado banco excel) := by
    refine (planilha_perm banco _).trans ?_
    refine List.Perm.trans ?_ (planilha_perm banco excel).symm
    refine List.Perm.append_right (dedupChaves banco) ?_
    have hM := (planilha_perm banco excel).filter
      (fun r => decide (r.chave ∉ (dedupChaves banco).map LinhaPlanilha.chave))
    refine hM.trans ?_
    rw [List.filter_append]
    have hdB : (dedupChaves banco).filter
        (fun r => decide (r.chave ∉ (dedupChaves banco).map LinhaPlanilha.chave)) = [] := by
      rw [List.filter_eq_nil_iff]
      intro r hr
      simp [List.mem_map_of_mem LinhaPlanilha.chave hr]
    rw [hdB, List.append_nil, List.filter_filter]
    apply List.Perm.of_eq
    apply List.filter_congr
    intro a _
    exact Bool.and_self _
  exact ⟨hperm, fun r => hperm.mem_iff⟩

theorem tryFormatos_dmy : tryFormatosData formatosData (pyStrip "10/07/2024") =
    some { y := 2024, mon := 7, d := 10 } := by decide

/-- Claim C9: `converter_para_data` returns the first success of the fixed
ordered format list, consulting the permissive fallback exactly on total
format failure (and yielding null when that fails too, since the fallback
already carries its own failure); in particular `"10/07/2024"` is read
day-first as 2024-07-10, independently of the fallback, and a relational
sync over a store holding one valid record with that ETA string produces a
row whose ETA column is the date 2024-07-10. -/
theorem claim9_conversao_data :
    (∀ (dateutil : String → Option PyDate) (s : String) (d : PyDate), s ≠ "" →
      tryFormatosData formatosData (pyStrip s) = some d →
      converterParaData dateutil s = some d) ∧
    (∀ (dateutil : String → Option PyDate) (s : String), s ≠ "" →
      tryFormatosData formatosData (pyStrip s) = none →
      converterParaData dateutil s = dateutil (pyStrip s)) ∧
    (∀ dateutil : String → Option PyDate,
      converterParaData dateutil "10/07/2024" = some { y := 2024, mon := 7, d := 10 }) ∧
    (∀ (idOf : String → String) (dateutil : String → Option PyDate)
        (meta : Metadata) (e : EmailProcessado),
      e.dados.status ≠ some "SEM_DADOS_EXPORTACAO" → erroTruthyB e.dados = false →
      pyStrip e.dados.ordem ≠ "" → e.dados.eta = "10/07/2024" →
      (sincronizarJsonParaBanco idOf dateutil ⟨meta, [e]⟩ []).1.map RegistroDB.eta =
        [some { y := 2024, mon := 7, d := 10 }]) := by
  have hfirst : ∀ (dateutil : String → Option PyDate) (s : String) (d : PyDate), s ≠ "" →
      tryFormatosData formatosData (pyStrip s) = some d →
      converterParaData dateutil s = some d := by
    intro dateutil s d hs ht
    unfold converterParaData
    rw [if_neg hs, ht]
  have hdmy : ∀ dateutil : String → Option PyDate,
      converterParaData dateutil "10/07/2024" = some { y := 2024, mon := 7, d := 10 } :=
    fun dateutil => hfirst dateutil _ _ (by decide) tryFormatos_dmy
  refine ⟨hfirst, ?_, hdmy, ?_⟩
  · intro dateutil s hs ht
    unfold converterParaData
    rw [if_neg hs, ht]
  · intro idOf dateutil meta e h1 h2 h3 h4
    have hcond : ¬(e.dados.status = some "SEM_DADOS_EXPORTACAO" ∨
        erroTruthyB e.dados = true) := by
      simp [h1, h2]
    simp only [sincronizarJsonParaBanco, sincronizarGo, if_neg hcond, if_neg h3,
      buscaPorOrdem, buscaAux, h4, hdmy, List.map_cons, List.map_nil, List.nil_append]

theorem claim9_witness :
    (sincronizarJsonParaBanco (fun _ => "") (fun _ => none)
        ⟨{ totalEmailsProcessados := 1, emailsComDados := 1, ordensUnicas := ["ORD2"] },
          [{ numeroEmail := 1, dados := { ordem := "ORD2", eta := "10/07/2024" } }]⟩
        []).1.map RegistroDB.eta = [some { y := 2024, mon := 7, d := 10 }] :=
  claim9_conversao_data.2.2.2 (fun _ => "") (fun _ => none)
    { totalEmailsProcessados := 1, emailsComDados := 1, ordensUnicas := ["ORD2"] }
    { numeroEmail := 1, dados := { ordem := "ORD2", eta := "10/07/2024" } }
    (by decide) (by decide) (by decide) (by decide)

/-! ## Claim C10 proofs -/

theorem map_id_of_eq {α : Type} (l : List α) (f : α → α) (h : ∀ a ∈ l, f a = a) :
    l.map f = l := by
  induction l with
  | nil => rfl
  | cons x xs ih =>
    simp only [List.map_cons, h x (List.mem_cons_self x xs)]
    rw [ih fun a ha => h a (List.mem_cons_of_mem x ha)]

theorem takeWhile_all {α : Type} (p : α → Bool) (l : List α) (h : ∀ a ∈ l, p a = true) :
    l.takeWhile p = l := by
  induction l with
  | nil => rfl
  | cons x xs ih =>
    have hx := h x (List.mem_cons_self x xs)
    have hxs := ih fun a ha => h a (List.mem_cons_of_mem x ha)
    simp [List.takeWhile_cons, hx, hxs]

theorem dropWhile_all {α : Type} (p : α → Bool) (l : List α) (h : ∀ a ∈ l, p a = true) :
    l.dropWhile p = [] := by
  induction l with
  | nil => rfl
  | cons x xs ih =>
    have hx := h x (List.mem_cons_self x xs)
    have hxs := ih fun a ha => h a (List.mem_cons_of_mem x ha)
    simp [List.dropWhile_cons, hx, hxs]

theorem pyFloatQ_digits (l : List Char) (hne : l ≠ []) (hd : ∀ c ∈ l, c.isDigit) :
    pyFloatQ l = some ((natOfDigits l : Nat) : Rat) := by
  have hdot : ∀ c ∈ l, c ≠ '.' := by
    intro c hc he
    subst he
    exact absurd (hd _ hc) (by decide)
  have hcount : l.count '.' = 0 := by
    rw [List.count_eq_zero]
    intro hmem
    exact hdot _ hmem rfl
  obtain ⟨c0, hc0⟩ := List.exists_mem_of_ne_nil l hne
  unfold pyFloatQ
  rw [if_pos ⟨hne, fun c hc => Or.inl (hd c hc), by rw [hcount]; exact Nat.zero_le 1,
    ⟨c0, hc0, hd c0 hc0⟩⟩]
  rw [takeWhile_all _ l (fun c hc => by simpa using hdot c hc),
    dropWhile_all _ l (fun c hc => by simpa using hdot c hc)]
  simp [natOfDigits]

/-- Claim C10: for a non-empty input with at least one digit and no comma,
`converter_para_decimal` keeps exactly the digits (the dot is removed along
with every other non-digit character) and returns the number those digits
spell; so `"1234.56"` becomes 123456, not 1234.56. -/
theorem claim10_conversao_decimal :
    (∀ s : String, s ≠ "" → (∃ c ∈ s.data, c.isDigit) → (∀ c ∈ s.data, c ≠ ',') →
      converterParaDecimal s =
        some ((natOfDigits (s.data.filter Char.isDigit) : Nat) : Rat)) ∧
    converterParaDecimal "1234.56" = some ((123456 : Nat) : Rat) := by
  have hgeral : ∀ s : String, s ≠ "" → (∃ c ∈ s.data, c.isDigit) →
      (∀ c ∈ s.data, c ≠ ',') →
      converterParaDecimal s =
        some ((natOfDigits (s.data.filter Char.isDigit) : Nat) : Rat) := by
    intro s hs hdig hnc
    have hl : s.data.filter (fun c => c.isDigit || c = ',') =
        s.data.filter Char.isDigit := by
      apply List.filter_congr
      intro c hc
      simp [hnc c hc]
    have hdigits : ∀ c ∈ s.data.filter Char.isDigit, c.isDigit := by
      intro c hc
      exact (List.mem_filter.mp hc).2
    have hmap : (s.data.filter Char.isDigit).map (fun c => if c = ',' then '.' else c) =
        s.data.filter Char.isDigit := by
      apply map_id_of_eq
      intro c hc
      have : c ≠ ',' := by
        intro he
        subst he
        exact absurd (hdigits _ hc) (by decide)
      simp [this]
    obtain ⟨c0, hc0, hc0d⟩ := hdig
    have hne : s.data.filter Char.isDigit ≠ [] :=
      List.ne_nil_of_mem (List.mem_filter.mpr ⟨hc0, hc0d⟩)
    unfold converterParaDecimal
    rw [if_neg hs, hl, hmap, if_neg hne]
    exact pyFloatQ_digits _ hne hdigits
  refine ⟨hgeral, ?_⟩
  rw [hgeral "1234.56" (by decide) (by decide) (by decide)]
  norm_num
  decide

theorem claim10_witness :
    converterParaDecimal "1234.56" =
      some ((natOfDigits ("1234.56".data.filter Char.isDigit) : Nat) : Rat) :=
  claim10_conversao_decimal.1 "1234.56" (by decide) (by decide) (by decide)
